import Mathlib

set_option maxRecDepth 40000

namespace PypeIt

/-! Shallow embedding of the slit-tracing and DEIMOS optical-model code of this
repository (src/pypit/traceslits.py and src/pypeit/spectrographs/keck_deimos.py).
Arrays of floats are modelled as lists of rationals; fatal `msgs.error` calls and
Python exceptions are modelled with `Except`.  Parts of the repository that are
not under src/ (artraceslits, arpixels, opticalmodel.py, slitmask.py) are
modelled from the spec where a claim depends on them; each such definition says
so in its doc comment. -/

/-- Minimum of two rationals. -/
def rmin (a b : ℚ) : ℚ := if a ≤ b then a else b

/-- Maximum of two rationals. -/
def rmax (a b : ℚ) : ℚ := if a ≤ b then b else a

/-- Minimum of a list of rationals, mirroring np.min on a nonempty array. -/
def listMin : List ℚ → ℚ
| [] => 0
| x :: xs => xs.foldl rmin x

/-- Maximum of a list of rationals, mirroring np.max on a nonempty array. -/
def listMax : List ℚ → ℚ
| [] => 0
| x :: xs => xs.foldl rmax x

/-- Insertion of a rational into a sorted list. -/
def insertSorted (a : ℚ) : List ℚ → List ℚ
| [] => [a]
| b :: t => if a ≤ b then a :: b :: t else b :: insertSorted a t

/-- Ascending insertion sort of a list of rationals. -/
def sortRat : List ℚ → List ℚ
| [] => []
| a :: t => insertSorted a (sortRat t)

/-- Median of a list of rationals, mirroring np.median: sort, then take the middle
element (odd length) or the mean of the two middle elements (even length). -/
def median (l : List ℚ) : ℚ :=
  let s := sortRat l
  let n := s.length
  if n % 2 = 1 then s.getD (n / 2) 0
  else (s.getD (n / 2 - 1) 0 + s.getD (n / 2) 0) / 2

/-- Python int() truncation toward zero of a rational number (num and den are
coprime and den is positive, so integer division toward zero is exact). -/
def int_trunc (q : ℚ) : ℤ :=
  Int.tdiv q.num (q.den : ℤ)

/-- Whether an Except value is an error. -/
def isError {ε α : Type} : Except ε α → Bool
| Except.error _ => true
| Except.ok _ => false

/-- Value of an Except, with a default for the error case. -/
def exceptGetD {ε α : Type} (e : Except ε α) (d : α) : α :=
  match e with
  | Except.ok v => v
  | Except.error _ => d

/-- Decidable equality of Except values. -/
instance {ε α : Type} [DecidableEq ε] [DecidableEq α] : DecidableEq (Except ε α)
| Except.error x, Except.error y =>
  if h : x = y then isTrue (by rw [h]) else isFalse (fun hc => h (Except.error.injEq .. ▸ hc))
| Except.error _, Except.ok _ => isFalse (fun hc => Except.noConfusion hc)
| Except.ok _, Except.error _ => isFalse (fun hc => Except.noConfusion hc)
| Except.ok x, Except.ok y =>
  if h : x = y then isTrue (by rw [h]) else isFalse (fun hc => h (Except.ok.injEq .. ▸ hc))

/-- Reason carried by a message emitted while trimming slits
(TraceSlits._trim_slits in src/pypit/traceslits.py). -/
inductive TrimReason
| offDetector
| belowFracignore
deriving DecidableEq

/-- A message emitted by TraceSlits._trim_slits, naming the 1-based slit number
(the code formats the message with o+1). -/
structure TrimMsg where
  slit : ℕ
  reason : TrimReason
deriving DecidableEq

/-- Row-wise slit widths rcen[:, o] - lcen[:, o]. -/
def colWidth (lc rc : List ℚ) : List ℚ := List.zipWith (fun r l => r - l) rc lc

/-- Loop body of TraceSlits._trim_slits for one slit column o: returns whether the
slit is masked (dropped) and the messages emitted for it.  Mirrors the source:
if np.min(lcen[:, o]) > ncols the slit is off the detector; elif
np.max(rcen[:, o]) < 0 it is off the detector; independently of those two, when
usefracpix is set, a median width below fracpix also masks the slit. -/
def trimColMask (ncols : ℕ) (fracpix : ℤ) (usefracpix : Bool)
    (lcen rcen : List (List ℚ)) (o : ℕ) : Bool × List TrimMsg :=
  let lc := lcen.getD o []
  let rc := rcen.getD o []
  let base : Bool × List TrimMsg :=
    if listMin lc > (ncols : ℚ) then (true, [⟨o + 1, TrimReason.offDetector⟩])
    else if listMax rc < 0 then (true, [⟨o + 1, TrimReason.offDetector⟩])
    else (false, [])
  if usefracpix then
    if median (colWidth lc rc) < (fracpix : ℚ) then
      (true, base.2 ++ [⟨o + 1, TrimReason.belowFracignore⟩])
    else base
  else base

/-- TraceSlits._trim_slits (src/pypit/traceslits.py): edge curves are stored
column-wise (lcen is the list of per-slit columns, each the list of per-row
values); ncols is mstrace.shape[1] and fracpix = int(fracignore * ncols).  The
surviving columns (wok = np.where(mask == 0)[0]) are compacted in order via
lcen[:, wok]. -/
def trim_slits (ncols : ℕ) (fracignore : ℚ) (usefracpix : Bool)
    (lcen rcen : List (List ℚ)) :
    List (List ℚ) × List (List ℚ) × List TrimMsg :=
  let nslit := lcen.length
  let fracpix := int_trunc (fracignore * ncols)
  let wok := (List.range nslit).filter
      (fun o => !(trimColMask ncols fracpix usefracpix lcen rcen o).1)
  (wok.map (fun o => lcen.getD o []), wok.map (fun o => rcen.getD o []),
    ((List.range nslit).map
      (fun o => (trimColMask ncols fracpix usefracpix lcen rcen o).2)).flatten)

/-- TraceSlits._match_edges (src/pypit/traceslits.py).  The fragment counts lcnt
and rcnt are produced by artraceslits.new_match_edges, which is not under src/;
Modelled from the spec: the Edge Labeler assigns IDs to the left/right fragments
and reports how many distinct ones exist, so the two counts are taken here as
inputs.  The guard itself is from the source: a count reaching ednum is a fatal
msgs.error. -/
def match_edges_check (ednum lcnt rcnt : ℕ) : Except String (ℕ × ℕ) :=
  if lcnt ≥ ednum ∨ rcnt ≥ ednum then
    Except.error "Found more edges than allowed by ednum. Set ednum to a larger number."
  else Except.ok (lcnt, rcnt)

/-! DEIMOSCameraDistortion (src/pypeit/spectrographs/keck_deimos.py). -/

/-- Coefficient c2 of the DEIMOS camera distortion polynomial. -/
def dcd_c2 : ℚ := 457563 / 10000000

/-- Coefficient c4 of the DEIMOS camera distortion polynomial. -/
def dcd_c4 : ℚ := -3088123 / 10000000

/-- Coefficient c6 of the DEIMOS camera distortion polynomial. -/
def dcd_c6 : ℚ := -14917 / 1000

/-- DEIMOSCameraDistortion.remove_distortion: x / (c0 + x2 (c2 + x2 (c4 + x2 c6)))
with x2 = x*x and c0 = 1. -/
def remove_distortion (x : ℚ) : ℚ :=
  let x2 := x * x
  x / (1 + x2 * (dcd_c2 + x2 * (dcd_c4 + x2 * dcd_c6)))

/-- The i-th point of the tabulation grid np.linspace(-0.6, 0.6, 1000), namely
(2i - 999)/1665. -/
def tabX (i : ℕ) : ℚ := ((2 * (i : ℤ) - 999 : ℤ) : ℚ) / 1665

/-- The i-th abscissa of the inverse interpolator: the forward model evaluated on
the tabulation grid (the table is strictly increasing on this grid, so interp1d
leaves it in this order). -/
def tabY (i : ℕ) : ℚ := remove_distortion (tabX i)

/-- Fuel-bounded scan for the first index at or after i whose knot tabY bounds y
from above (the segment search of scipy interp1d). -/
def findSegGo (y : ℚ) : ℕ → ℕ → ℕ
| 0, _ => 999
| fuel + 1, i => if y ≤ tabY i then i else findSegGo y fuel (i + 1)

/-- Index of the interpolation knot bracketing y from above. -/
def findSeg (y : ℚ) : ℕ := findSegGo y 999 1

/-- Linear interpolation of the tabulated inverse distortion at y. -/
def interpInverse (y : ℚ) : ℚ :=
  let i := findSeg y
  tabX (i - 1) + (y - tabY (i - 1)) * (tabX i - tabX (i - 1)) / (tabY i - tabY (i - 1))

/-- DEIMOSCameraDistortion.apply_distortion: values strictly inside the tabulated
range are inverted by interpolation; otherwise the code reaches warnings.warn, but
the warnings module is never imported in src/pypeit/spectrographs/keck_deimos.py,
so Python raises NameError there instead of warning and zero-filling. -/
def apply_distortion (y : ℚ) : Except String ℚ :=
  if tabY 0 < y ∧ y < tabY 999 then Except.ok (interpInverse y)
  else Except.error "NameError: warnings is not defined"

/-! Control flow of TraceSlits.run (src/pypit/traceslits.py). -/

/-- One constructor per phase-method invocation site of TraceSlits.run.  The
trivial/statistical split of _assign_edges mirrors its lcnt == 1 / rcnt == 1
branches (the statistical branch calls artraceslits.assign_slits). -/
inductive Step
| edgearr_single_slit
| edgearr_from_binarr
| match_edges
| add_left_right
| maxgap_prep
| assign_trivial_left
| assign_slits_left
| assign_trivial_right
| assign_slits_right
| maxgap_close
| final_left_right
| mslit_tcrude
| mslit_sync
| add_user_slits
| ignore_orders
| set_lrminx
| fit_edges_left
| fit_edges_right
| chk_for_longslit
| synchronize
| pca
| trim_slits_call
deriving DecidableEq

/-- Arguments and settings of TraceSlits.run that steer its control flow. -/
structure RunConfig where
  singleNonEmpty : Bool
  maxgapSet : Bool
  armlsd : Bool
  ignoreOrders : Bool
  addUserSlits : Bool

/-- The sequence of phase calls made by TraceSlits.run as a function of its
arguments and settings, together with the resulting user_set flag.  The edge
counts and the longslit check result are computed by artraceslits code that is
not under src/, so the branch conditions lcnt == 1, rcnt == 1 and the longslit
outcome enter here as Boolean oracle inputs; everything else mirrors the body
of run() line by line. -/
def run_steps (cfg : RunConfig) (lcnt_is1 rcnt_is1 : Bool) (longslit : Bool) :
    List Step × Bool :=
  let user_set := cfg.singleNonEmpty
  let steps :=
    (if cfg.singleNonEmpty then [Step.edgearr_single_slit]
     else [Step.edgearr_from_binarr])
    ++ [Step.match_edges, Step.add_left_right]
    ++ (if cfg.maxgapSet then [Step.maxgap_prep] else [])
    ++ (if lcnt_is1 then [Step.assign_trivial_left] else [Step.assign_slits_left])
    ++ (if rcnt_is1 then [Step.assign_trivial_right] else [Step.assign_slits_right])
    ++ (if cfg.maxgapSet then [Step.maxgap_close] else [])
    ++ (if user_set then [] else [Step.final_left_right])
    ++ (if cfg.armlsd then [Step.mslit_tcrude] else [])
    ++ (if cfg.armlsd then [Step.mslit_sync] else [])
    ++ (if cfg.addUserSlits then [Step.add_user_slits] else [])
    ++ (if cfg.ignoreOrders then [Step.ignore_orders] else [])
    ++ [Step.set_lrminx, Step.fit_edges_left, Step.fit_edges_right,
        Step.chk_for_longslit]
    ++ (if longslit then []
        else [Step.synchronize, Step.pca, Step.trim_slits_call])
  (steps, user_set)

/-! TraceSlits.write and TraceSlits.from_files (src/pypit/traceslits.py).
The array payloads, the settings dict and the tc_dict are opaque to the
serialization logic, so they are type parameters here. -/

/-- The fields of a TraceSlits instance that write/from_files touch.  binarr is
recomputed from mstrace by the constructor and the lmin/lmax/lcoeff fitting state
is never persisted, so neither appears here. -/
structure TSState (α σ τ : Type) where
  mstrace : α
  pixlocn : α
  binbpx : α
  input_binbpx : Bool
  settings : σ
  steps : List String
  lcen : Option α
  rcen : Option α
  edgearr : Option α
  siglev : Option α
  tc_dict : Option τ

/-- The on-disk artifact written by TraceSlits.write: named FITS planes in order,
plus the JSON record (settings always, tc_dict only when present, steps). -/
structure TSArtifact (α σ τ : Type) where
  planes : List (String × Option α)
  json_settings : σ
  json_tc : Option τ
  json_steps : List String

/-- TraceSlits.write: MSTRACE always; EDGEARR and SIGLEV when set; PIXLOCN
always; BINBPX only when the bad-pixel mask was user input; LCEN (and with it
RCEN) when lcen is set.  The JSON holds settings, tc_dict when not None, and the
step history. -/
def ts_write {α σ τ : Type} (s : TSState α σ τ) : TSArtifact α σ τ :=
  { planes :=
      [("MSTRACE", some s.mstrace)]
      ++ (match s.edgearr with
          | some e => [("EDGEARR", some e)]
          | none => [])
      ++ (match s.siglev with
          | some v => [("SIGLEV", some v)]
          | none => [])
      ++ [("PIXLOCN", some s.pixlocn)]
      ++ (if s.input_binbpx then [("BINBPX", some s.binbpx)] else [])
      ++ (match s.lcen with
          | some l => [("LCEN", some l), ("RCEN", s.rcen)]
          | none => []),
    json_settings := s.settings,
    json_tc := s.tc_dict,
    json_steps := s.steps }

/-- TraceSlits.from_files: reads MSTRACE and PIXLOCN (required), BINBPX if
present (its presence decides input_binbpx and a missing mask is re-created with
np.zeros_like), constructs the instance with the stored settings, restores
steps, LCEN/RCEN when LCEN is present, EDGEARR and SIGLEV when present, and
finally reads tc_dict from the JSON unconditionally, so a JSON without tc_dict
raises KeyError. -/
def ts_from_files {α σ τ : Type} (uniform_zeros : α → α) (a : TSArtifact α σ τ) :
    Except String (TSState α σ τ) :=
  match a.planes.lookup "MSTRACE", a.planes.lookup "PIXLOCN" with
  | some (some mstrace), some (some pixlocn) =>
    let bopt : Option α := (a.planes.lookup "BINBPX").bind id
    let base : TSState α σ τ :=
      { mstrace := mstrace, pixlocn := pixlocn,
        binbpx := bopt.getD (uniform_zeros mstrace),
        input_binbpx := bopt.isSome,
        settings := a.json_settings,
        steps := a.json_steps,
        lcen := none, rcen := none,
        edgearr := (a.planes.lookup "EDGEARR").bind id,
        siglev := (a.planes.lookup "SIGLEV").bind id,
        tc_dict := none }
    match a.planes.lookup "LCEN" with
    | some lopt =>
      match a.planes.lookup "RCEN" with
      | some ropt =>
        match a.json_tc with
        | some tc =>
          Except.ok { base with lcen := lopt, rcen := ropt, tc_dict := some tc }
        | none => Except.error "KeyError: tc_dict"
      | none => Except.error "ValueError: RCEN is not in list"
    | none =>
      match a.json_tc with
      | some tc => Except.ok { base with tc_dict := some tc }
      | none => Except.error "KeyError: tc_dict"
  | _, _ => Except.error "ValueError: required plane is not in list"

/-- The data the fitting phase (_set_lrminx, _fit_edges, _synchronize, _pca,
_trim_slits) consumes: mstrace (binarr is a pure function of it), pixlocn, the
bad-pixel mask, the settings and the edge map.  Resuming at the fit phase is a
deterministic function of these. -/
def fit_inputs {α σ τ : Type} (s : TSState α σ τ) : α × α × α × σ × Option α :=
  (s.mstrace, s.pixlocn, s.binbpx, s.settings, s.edgearr)

/-! KeckDEIMOSSpectrograph grating and coordinate queries
(src/pypeit/spectrographs/keck_deimos.py). -/

/-- Modelled from the spec: the SlitMask class (pypeit/spectrographs/slitmask.py
is not under src/) holds the slit-mask data read from the BluSlits extension;
for coordinate queries only its per-slit centers are consumed. -/
structure SlitMaskM where
  center : List (ℚ × ℚ)

/-- Modelled from the spec: ReflectionGrating (pypeit/spectrographs/
opticalmodel.py is not under src/) records ruling density, tilt, roll, yaw and
central wavelength, the values get_grating passes to its constructor. -/
structure Grating where
  ruling : ℚ
  tilt : ℚ
  roll : ℚ
  yaw : ℚ
  central_wave : ℚ
deriving DecidableEq

/-- Header fields of a DEIMOS calibration file consumed by get_slitmask and
get_grating, plus the slit centers derived from its BluSlits table. -/
structure CalibFile where
  gratepos : ℤ
  gratenam : String
  g3tltwav : ℚ
  g4tltwav : ℚ
  g3tltval : ℚ
  g4tltval : ℚ
  bluSlits : List (ℚ × ℚ)

/-- Whether the grating name contains the substring Mirror. -/
def containsMirror (s : String) : Bool :=
  decide (List.IsInfix "Mirror".toList s.toList)

/-- The digit characters of a grating name (re.sub removing non-numerics). -/
def nameDigits (s : String) : List Char := s.toList.filter Char.isDigit

/-- Decimal value of a digit string. -/
def digitsToNat (l : List Char) : ℕ := l.foldl (fun a c => 10 * a + (c.toNat - 48)) 0

/-- Ruling from the grating name in get_grating: 0 for a mirror, else the number
formed by the digits of the name (float() of an empty string raises), with the
calibration adjustments near 1200 and 831. -/
def rulingOf (name : String) : Except String ℚ :=
  if containsMirror name then Except.ok 0
  else if nameDigits name = [] then
    Except.error "ValueError: could not convert string to float"
  else
    let r : ℚ := (digitsToNat (nameDigits name) : ℚ)
    if |r - 1200| < 1/2 then Except.ok (120006/100)
    else if |r - 831| < 2 then Except.ok (83190/100)
    else Except.ok r

/-- The hardwired orientation coefficient table of _grating_orientation for
sliders 3 and 4 (int(ruling) keys 600, 831, 900, 1200, else the generic row);
any other slider raises KeyError. -/
def orientation_coeffs (slider : ℤ) (iruling : ℤ) :
    Except String (ℚ × ℚ × ℚ × ℚ) :=
  if slider = 3 then
    if iruling = 600 then Except.ok (145/1000, -8/1000, 56/100000, -182/1000)
    else if iruling = 831 then Except.ok (143/1000, 0, 56/100000, -182/1000)
    else if iruling = 900 then Except.ok (141/1000, 0, 56/100000, -134/1000)
    else if iruling = 1200 then Except.ok (145/1000, 55/1000, 56/100000, -181/1000)
    else Except.ok (145/1000, 0, 56/100000, -182/1000)
  else if slider = 4 then
    if iruling = 600 then Except.ok (-65/1000, 63/1000, 69/100000, -298/1000)
    else if iruling = 831 then Except.ok (-34/1000, 60/1000, 69/100000, -196/1000)
    else if iruling = 900 then Except.ok (-64/1000, 83/1000, 69/100000, -277/1000)
    else if iruling = 1200 then Except.ok (-52/1000, 122/1000, 69/100000, -294/1000)
    else Except.ok (-50/1000, 80/1000, 69/100000, -250/1000)
  else Except.error "KeyError: slider"

/-- KeckDEIMOSSpectrograph._grating_orientation: roll, yaw and corrected tilt.
A mirror (ruling 0) in slider 2 gets the fixed orientation; any other ruling in
slider 2 raises; sliders 3 and 4 use the calibrated coefficient table. -/
def grating_orientation (slider : ℤ) (ruling tilt : ℚ) :
    Except String (ℚ × ℚ × ℚ) :=
  if slider = 2 ∧ int_trunc ruling = 0 then Except.ok (0, 0, -19423/1000)
  else if slider = 2 then
    Except.error "ValueError: Ruling should be 0 if slider in position 2."
  else
    match orientation_coeffs slider (int_trunc ruling) with
    | Except.error e => Except.error e
    | Except.ok c => Except.ok (c.1, c.2.1, tilt * (1 - c.2.2.1) + c.2.2.2)

/-- KeckDEIMOSSpectrograph.get_grating: the central wavelength and tilt come from
the G3 headers for slider 3 and from the G4 headers otherwise; the ruling comes
from the grating name; a ruling of 0 (a mirror) stores None as the grating,
otherwise a ReflectionGrating is built from ruling, corrected tilt, roll, yaw
and central wavelength. -/
def get_grating (f : CalibFile) : Except String (Option Grating) :=
  let central_wave := if f.gratepos = 3 then f.g3tltwav else f.g4tltwav
  let tilt0 := if f.gratepos = 3 then f.g3tltval else f.g4tltval
  match rulingOf f.gratenam with
  | Except.error e => Except.error e
  | Except.ok ruling =>
    match grating_orientation f.gratepos ruling tilt0 with
    | Except.error e => Except.error e
    | Except.ok o =>
      Except.ok (if ruling = 0 then none
        else some ⟨ruling, o.2.2, o.1, o.2.1, central_wave⟩)

/-- KeckDEIMOSSpectrograph.get_slitmask: builds the SlitMask from the BluSlits
table of the file (the corner-to-center reduction lives in slitmask.py, which is
not under src/; Modelled from the spec: the file carries the resulting centers). -/
def get_slitmask (f : CalibFile) : SlitMaskM := ⟨f.bluSlits⟩

/-- The lazily-built spectrograph state consulted by coordinate queries. -/
structure SpecState where
  slitmask : Option SlitMaskM
  grating : Option Grating

/-- Successful outcome of mask_to_pixel_coordinates: the resolved coordinate
lists and grating handed to the optical-model ray trace (mask_to_imaging
coordinates and DetectorMap.ccd_coordinates live in opticalmodel.py, which is
not under src/; Modelled from the spec: success returns the resolved inputs of
that ray trace). -/
structure RayRequest where
  xs : List ℚ
  ys : List ℚ
  grating : Grating
deriving DecidableEq

/-- KeckDEIMOSSpectrograph.mask_to_pixel_coordinates control flow: reject
mismatched x/y; a supplied file resets the slit mask (only when both x and y are
omitted) and always resets the grating; then coordinates require a slit mask and
a grating, each missing one raising ValueError in that order. -/
def mask_to_pixel_coordinates (st : SpecState) (x y : Option (List ℚ))
    (filename : Option CalibFile) : Except String RayRequest :=
  if (x.isNone && y.isSome) || (x.isSome && y.isNone) then
    Except.error "ValueError: Must provide both x and y or neither to use slit mask."
  else
    let smask : Option SlitMaskM :=
      match filename with
      | some f => if x.isNone && y.isNone then some (get_slitmask f) else st.slitmask
      | none => st.slitmask
    match (match filename with
           | some f => get_grating f
           | none => Except.ok st.grating) with
    | Except.error e => Except.error e
    | Except.ok gopt =>
      if x.isNone && y.isNone && smask.isNone then
        Except.error "ValueError: No coordinates; Provide them directly or instantiate slit mask."
      else
        match gopt with
        | none =>
          Except.error "ValueError: Must define a grating first; provide a file or use get_grating()"
        | some g =>
          let xs := match x with
            | some v => v
            | none => (smask.getD ⟨[]⟩).center.map Prod.fst
          let ys := match y with
            | some v => v
            | none => (smask.getD ⟨[]⟩).center.map Prod.snd
          Except.ok ⟨xs, ys, g⟩

/-! DetectorMap (the base class lives in pypeit/spectrographs/opticalmodel.py,
which is not under src/; DEIMOSDetectorMap in src/pypeit/spectrographs/
keck_deimos.py supplies the chip geometry).  Modelled from the spec: the map
converts an imaging-plane coordinate to (chip index, x pixel, y pixel) through a
per-chip affine/rotation transform, and image_coordinates is its inverse. -/

/-- Modelled from the spec: geometry of one chip of the mosaic, its center in
the imaging plane and the cosine/sine of its rotation. -/
structure ChipGeom where
  cx : ℚ
  cy : ℚ
  cosr : ℚ
  sinr : ℚ

/-- Modelled from the spec: a detector map is the chip pixel counts, the pixel
size and the per-chip geometry. -/
structure DetMap where
  nx : ℚ
  ny : ℚ
  pixelSize : ℚ
  chips : List ChipGeom

/-- Modelled from the spec: imaging-plane coordinates of a pixel on a chip, the
inverse of the per-chip affine/rotation transform of ccd_coordinates. -/
def image_coordinates (m : DetMap) (chip : ℕ) (xpix ypix : ℚ) : ℚ × ℚ :=
  let c := m.chips.getD chip ⟨0, 0, 1, 0⟩
  let dx := (xpix - m.nx / 2) * m.pixelSize
  let dy := (ypix - m.ny / 2) * m.pixelSize
  (c.cx + c.cosr * dx - c.sinr * dy, c.cy + c.sinr * dx + c.cosr * dy)

/-- Modelled from the spec: in-chip pixel coordinates of an imaging-plane point
under one chip geometry (the affine/rotation transform of ccd_coordinates). -/
def chip_pixel (m : DetMap) (c : ChipGeom) (p : ℚ × ℚ) : ℚ × ℚ :=
  let dx := p.1 - c.cx
  let dy := p.2 - c.cy
  ((c.cosr * dx + c.sinr * dy) / m.pixelSize + m.nx / 2,
   (-(c.sinr) * dx + c.cosr * dy) / m.pixelSize + m.ny / 2)

/-- Whether a pixel coordinate lies on the chip (DEIMOS pixel coordinates are
1-indexed). -/
def pixInBounds (m : DetMap) (q : ℚ × ℚ) : Bool :=
  decide (1 ≤ q.1) && decide (q.1 ≤ m.nx) && decide (1 ≤ q.2) && decide (q.2 ≤ m.ny)

/-- Scan of the chip list for the first chip whose inverse transform puts the
imaging-plane point on the chip. -/
def ccdFindGo (m : DetMap) (p : ℚ × ℚ) : List ChipGeom → ℕ → Option (ℕ × ℚ × ℚ)
| [], _ => none
| c :: cs, i =>
  let q := chip_pixel m c p
  if pixInBounds m q then some (i, q) else ccdFindGo m p cs (i + 1)

/-- Modelled from the spec: ccd_coordinates maps an imaging-plane coordinate to
(chip index, x pixel, y pixel) via the chip geometries. -/
def ccd_coordinates (m : DetMap) (p : ℚ × ℚ) : Option (ℕ × ℚ × ℚ) :=
  ccdFindGo m p m.chips 0

/-- DEIMOSDetectorMap chip pixel counts (src). -/
def deimos_npix : ℚ × ℚ := (2048, 4096)

/-- DEIMOSDetectorMap pixel size in mm (src). -/
def deimos_pixel_size : ℚ := 15/1000

/-- DEIMOSDetectorMap nominal inter-chip gap in mm (src). -/
def deimos_ccd_gap : ℚ × ℚ := (1, 1/10)

/-- DEIMOSDetectorMap chip edge width in mm (src). -/
def deimos_ccd_edge : ℚ × ℚ := (154/1000, 70/1000)

/-- DEIMOSDetectorMap effective chip size: npix + (2 edge + gap)/pixel size. -/
def deimos_ccd_size : ℚ × ℚ :=
  (deimos_npix.1 + (2 * deimos_ccd_edge.1 + deimos_ccd_gap.1) / deimos_pixel_size,
   deimos_npix.2 + (2 * deimos_ccd_edge.2 + deimos_ccd_gap.2) / deimos_pixel_size)

/-- Chip 3 of the DEIMOS mosaic (index 2): origin (0.5, -0.5) times the chip
size, offset (0, 0), rotation 0 (the one chip whose rotation is exactly zero,
so its cosine/sine are exact rationals). -/
def deimos_chip3 : ChipGeom :=
  ⟨(1/2) * deimos_ccd_size.1, (-1/2) * deimos_ccd_size.2, 1, 0⟩

/-- A detector map with the DEIMOS geometry restricted to chip 3. -/
def deimos_chip3_map : DetMap :=
  ⟨deimos_npix.1, deimos_npix.2, deimos_pixel_size, [deimos_chip3]⟩

/-! Helper lemmas. -/

/-- getD of a mapped list at an in-range index is the function of the getD. -/
theorem getD_map_of_lt {α β : Type} (f : α → β) (l : List α) :
    ∀ (i : ℕ), i < l.length → ∀ (d : α) (d2 : β),
      (l.map f).getD i d2 = f (l.getD i d) := by
  induction l with
  | nil => intro i h; simp at h
  | cons a t ih =>
    intro i h d d2
    cases i with
    | zero => rfl
    | succ j => exact ih j (by simpa using h) d d2

/-- getD at an in-range index is a member of the list. -/
theorem getD_mem_of_lt {α : Type} (l : List α) :
    ∀ (i : ℕ), i < l.length → ∀ (d : α), l.getD i d ∈ l := by
  induction l with
  | nil => intro i h; simp at h
  | cons a t ih =>
    intro i h d
    cases i with
    | zero => exact List.mem_cons_self a t
    | succ j => exact List.mem_cons_of_mem a (ih j (by simpa using h) d)

/-- The imaging-plane point of a pixel, written out through the chip geometry. -/
theorem image_coordinates_def (m : DetMap) (chip : ℕ) (x y : ℚ) :
    image_coordinates m chip x y
      = ((m.chips.getD chip ⟨0, 0, 1, 0⟩).cx
          + (m.chips.getD chip ⟨0, 0, 1, 0⟩).cosr * ((x - m.nx / 2) * m.pixelSize)
          - (m.chips.getD chip ⟨0, 0, 1, 0⟩).sinr * ((y - m.ny / 2) * m.pixelSize),
         (m.chips.getD chip ⟨0, 0, 1, 0⟩).cy
          + (m.chips.getD chip ⟨0, 0, 1, 0⟩).sinr * ((x - m.nx / 2) * m.pixelSize)
          + (m.chips.getD chip ⟨0, 0, 1, 0⟩).cosr * ((y - m.ny / 2) * m.pixelSize)) := rfl

/-- A chip with an orthonormal rotation inverts its own affine transform. -/
theorem chip_pixel_pair (m : DetMap) (c : ChipGeom) (x y : ℚ)
    (hps : m.pixelSize ≠ 0) (horth : c.cosr * c.cosr + c.sinr * c.sinr = 1) :
    chip_pixel m c
      (c.cx + c.cosr * ((x - m.nx / 2) * m.pixelSize)
         - c.sinr * ((y - m.ny / 2) * m.pixelSize),
       c.cy + c.sinr * ((x - m.nx / 2) * m.pixelSize)
         + c.cosr * ((y - m.ny / 2) * m.pixelSize))
      = (x, y) := by
  simp only [chip_pixel, Prod.mk.injEq]
  constructor
  · have key1 : c.cosr * (c.cx + c.cosr * ((x - m.nx / 2) * m.pixelSize)
        - c.sinr * ((y - m.ny / 2) * m.pixelSize) - c.cx)
        + c.sinr * (c.cy + c.sinr * ((x - m.nx / 2) * m.pixelSize)
        + c.cosr * ((y - m.ny / 2) * m.pixelSize) - c.cy)
        = (x - m.nx / 2) * m.pixelSize := by
      linear_combination ((x - m.nx / 2) * m.pixelSize) * horth
    rw [key1, mul_div_assoc, div_self hps, mul_one]
    ring
  · have key2 : -c.sinr * (c.cx + c.cosr * ((x - m.nx / 2) * m.pixelSize)
        - c.sinr * ((y - m.ny / 2) * m.pixelSize) - c.cx)
        + c.cosr * (c.cy + c.sinr * ((x - m.nx / 2) * m.pixelSize)
        + c.cosr * ((y - m.ny / 2) * m.pixelSize) - c.cy)
        = (y - m.ny / 2) * m.pixelSize := by
      linear_combination ((y - m.ny / 2) * m.pixelSize) * horth
    rw [key2, mul_div_assoc, div_self hps, mul_one]
    ring

/-- The chip scan returns the first chip whose inverse transform puts the point
on the chip, with its pixel coordinates. -/
theorem ccdFindGo_eq (m : DetMap) (p : ℚ × ℚ) :
    ∀ (l : List ChipGeom) (k i : ℕ), k < l.length →
      (∀ j, j < k → pixInBounds m (chip_pixel m (l.getD j ⟨0, 0, 1, 0⟩) p) = false) →
      pixInBounds m (chip_pixel m (l.getD k ⟨0, 0, 1, 0⟩) p) = true →
      ccdFindGo m p l i = some (i + k, chip_pixel m (l.getD k ⟨0, 0, 1, 0⟩) p) := by
  intro l
  induction l with
  | nil => intro k i hk; simp at hk
  | cons c cs ih =>
    intro k i hk hprev hcur
    cases k with
    | zero =>
      simp only [List.getD_cons_zero] at hcur ⊢
      simp [ccdFindGo, hcur]
    | succ j =>
      have h0 : pixInBounds m (chip_pixel m c p) = false := hprev 0 (Nat.succ_pos j)
      have hrec := ih j (i + 1) (by simpa using hk)
        (fun j2 hj2 => hprev (j2 + 1) (by omega)) (by simpa using hcur)
      have harr : i + 1 + j = i + (j + 1) := by omega
      simp only [List.getD_cons_succ]
      simp only [ccdFindGo, h0, Bool.false_eq_true, if_false]
      rw [hrec, harr]

/-! Claims. -/

/-- C1: after trimming (TraceSlits._trim_slits), for every surviving slit and
every row the right-edge curve strictly exceeds the left-edge curve, and lcen
and rcen have the same number of columns.  The entry curves come from the PCA
stage, whose output invariant (spec section 4.6) is the pointwise inequality
taken here as the hypothesis hgt; trimming only selects columns, so the
invariant survives. -/
theorem trim_slits_preserves_edge_order
    (ncols : ℕ) (fracignore : ℚ) (usefracpix : Bool)
    (lcen rcen : List (List ℚ))
    (hgt : ∀ o, o < lcen.length → ∀ r, r < (lcen.getD o []).length →
      (lcen.getD o []).getD r 0 < (rcen.getD o []).getD r 0) :
    ((trim_slits ncols fracignore usefracpix lcen rcen).1).length
      = ((trim_slits ncols fracignore usefracpix lcen rcen).2.1).length
    ∧ ∀ i, i < ((trim_slits ncols fracignore usefracpix lcen rcen).1).length →
        ∀ r, r < (((trim_slits ncols fracignore usefracpix lcen rcen).1).getD i []).length →
        (((trim_slits ncols fracignore usefracpix lcen rcen).1).getD i []).getD r 0
          < (((trim_slits ncols fracignore usefracpix lcen rcen).2.1).getD i []).getD r 0 := by
  constructor
  · simp [trim_slits]
  · intro i hi r hr
    simp only [trim_slits, List.length_map] at hi hr ⊢
    rw [getD_map_of_lt _ _ i hi 0] at hr
    rw [getD_map_of_lt _ _ i hi 0, getD_map_of_lt _ _ i hi 0]
    have hmem := getD_mem_of_lt _ i hi 0
    have hro := List.mem_filter.mp hmem
    have hlt := List.mem_range.mp hro.1
    exact hgt _ hlt r hr

unseal Rat.mul Rat.inv Rat.add Rat.sub in
/-- Witness for C1 at a concrete input: one slit, two rows, left edge 0 and
right edge 1 on a 10-column detector with fracignore 1/100. -/
theorem trim_slits_preserves_edge_order_witness :
    ((trim_slits 10 (1/100) true [[0, 0]] [[1, 1]]).1).length
      = ((trim_slits 10 (1/100) true [[0, 0]] [[1, 1]]).2.1).length
    ∧ ∀ i, i < ((trim_slits 10 (1/100) true [[0, 0]] [[1, 1]]).1).length →
        ∀ r, r < (((trim_slits 10 (1/100) true [[0, 0]] [[1, 1]]).1).getD i []).length →
        (((trim_slits 10 (1/100) true [[0, 0]] [[1, 1]]).1).getD i []).getD r 0
          < (((trim_slits 10 (1/100) true [[0, 0]] [[1, 1]]).2.1).getD i []).getD r 0 :=
  trim_slits_preserves_edge_order 10 (1/100) true [[0, 0]] [[1, 1]] (by decide)

/-- C2: _match_edges raises a fatal error exactly when the count of distinct
left fragments or of distinct right fragments reaches or exceeds ednum, and
otherwise matching succeeds with the two counts. -/
theorem match_edges_overflow_guard (ednum lcnt rcnt : ℕ) :
    (isError (match_edges_check ednum lcnt rcnt) = true
      ↔ (lcnt ≥ ednum ∨ rcnt ≥ ednum))
    ∧ (¬(lcnt ≥ ednum ∨ rcnt ≥ ednum) →
        match_edges_check ednum lcnt rcnt = Except.ok (lcnt, rcnt)) := by
  by_cases h : lcnt ≥ ednum ∨ rcnt ≥ ednum
  · simp [match_edges_check, h, isError]
  · simp [match_edges_check, h, isError]

/-- Witness for C2 at the default ednum with an overflowing left count. -/
theorem match_edges_overflow_guard_witness :
    isError (match_edges_check 100000 100000 7) = true :=
  (match_edges_overflow_guard 100000 100000 7).1.mpr (Or.inl le_rfl)

unseal Rat.mul Rat.inv Rat.add Rat.sub in
/-- C3 counterexample: on a 250-column detector with fracignore = 1/100 the code
compares the median width with int(0.01 * 250) = 2, not with 2.5; a slit of
constant width 2.2 has median width below fracignore times the detector width
and is nevertheless kept. -/
theorem trim_slits_fracignore_truncation_cex :
    ((trim_slits 250 (1/100) true [[0, 0, 0]] [[11/5, 11/5, 11/5]]).1).length = 1
    ∧ median (colWidth [0, 0, 0] [11/5, 11/5, 11/5]) < (1/100) * 250 := by
  decide

/-- C3 (amended): a slit is dropped exactly when its left edge minimum exceeds
the column count, or its right edge maximum is below 0, or (when the check is
enabled) its median width is below the truncated threshold int(fracignore *
ncols); every drop emits a message naming the 1-based slit number; and the
surviving columns are compacted in order into dense consecutive indices. -/
theorem trim_slits_drop_characterization
    (ncols : ℕ) (fracignore : ℚ) (usefracpix : Bool)
    (lcen rcen : List (List ℚ)) :
    (∀ o, o < lcen.length →
      ((trimColMask ncols (int_trunc (fracignore * ncols)) usefracpix lcen rcen o).1 = true
        ↔ (listMin (lcen.getD o []) > (ncols : ℚ)
           ∨ listMax (rcen.getD o []) < 0
           ∨ (usefracpix = true
              ∧ median (colWidth (lcen.getD o []) (rcen.getD o []))
                  < ((int_trunc (fracignore * ncols) : ℤ) : ℚ)))))
    ∧ (∀ o, o < lcen.length →
        (trimColMask ncols (int_trunc (fracignore * ncols)) usefracpix lcen rcen o).1 = true →
        ∃ msg ∈ (trim_slits ncols fracignore usefracpix lcen rcen).2.2, msg.slit = o + 1)
    ∧ (trim_slits ncols fracignore usefracpix lcen rcen).1
        = ((List.range lcen.length).filter
            (fun o => !(trimColMask ncols (int_trunc (fracignore * ncols)) usefracpix lcen rcen o).1)).map
          (fun o => lcen.getD o [])
    ∧ (trim_slits ncols fracignore usefracpix lcen rcen).2.1
        = ((List.range lcen.length).filter
            (fun o => !(trimColMask ncols (int_trunc (fracignore * ncols)) usefracpix lcen rcen o).1)).map
          (fun o => rcen.getD o []) := by
  refine ⟨?_, ?_, rfl, rfl⟩
  · intro o _
    simp only [trimColMask]
    split_ifs <;> simp_all
  · intro o ho hdrop
    have hmsg : ∃ msg ∈ (trimColMask ncols (int_trunc (fracignore * ncols)) usefracpix lcen rcen o).2,
        msg.slit = o + 1 := by
      simp only [trimColMask] at hdrop ⊢
      split_ifs at hdrop ⊢ <;> simp_all
    obtain ⟨msg, hmem, hslit⟩ := hmsg
    refine ⟨msg, ?_, hslit⟩
    simp only [trim_slits, List.mem_flatten]
    exact ⟨_, List.mem_map_of_mem _ (List.mem_range.mpr ho), hmem⟩

unseal Rat.mul Rat.inv Rat.add Rat.sub in
/-- Witness for C3 at a concrete input: a slit whose left edge minimum 20
exceeds the 10-column detector is dropped and produces a message naming slit 1. -/
theorem trim_slits_drop_characterization_witness :
    ∃ msg ∈ (trim_slits 10 (1/100) true [[20, 20]] [[21, 21]]).2.2, msg.slit = 0 + 1 :=
  (trim_slits_drop_characterization 10 (1/100) true [[20, 20]] [[21, 21]]).2.1
    0 (by decide) (by decide)

unseal Rat.mul Rat.inv Rat.add Rat.sub in
/-- C4 counterexample: x = -0.6 is the first point of the tabulated domain, its
distortion-removed value equals the lowest interpolation knot, and the strict
range check of apply_distortion sends it to the out-of-range branch, so the
round trip does not recover -0.6 (the call even raises, since the warnings
module is not imported). -/
theorem distortion_roundtrip_endpoint_cex :
    apply_distortion (remove_distortion (-(3/5)))
      = Except.error "NameError: warnings is not defined" := by
  decide

unseal Rat.mul Rat.inv Rat.add Rat.sub in
/-- C4 (amended): for the concrete interior point x = 0.5 of the tabulated
domain, apply_distortion (remove_distortion 0.5) succeeds and recovers 0.5
within 1e-5; recovery fails at the domain endpoints, whose distortion-removed
values fall outside the open interpolation range. -/
theorem distortion_roundtrip_half :
    isError (apply_distortion (remove_distortion (1/2))) = false
    ∧ |exceptGetD (apply_distortion (remove_distortion (1/2))) 0 - 1/2| < 1/100000 := by
  decide

unseal Rat.mul Rat.inv Rat.add Rat.sub in
/-- C6: an input of apply_distortion outside the tabulated interpolation range
(here y = 3, beyond the highest knot) reaches warnings.warn, and because the
warnings module is never imported in src/pypeit/spectrographs/keck_deimos.py
the call raises NameError instead of completing with a warning and zero-filled
output. -/
theorem apply_distortion_out_of_range_raises :
    apply_distortion 3 = Except.error "NameError: warnings is not defined" := by
  decide

/-- C7 counterexample: with a user-supplied single slit (user_set mode) and the
default armlsd = True, TraceSlits.run still invokes the trace-crude and
multi-slit synchronization phases, contradicting the claim that all downstream
adaptive algorithms are skipped in this mode. -/
theorem run_user_set_tcrude_runs_cex :
    (run_steps ⟨true, false, true, false, false⟩ true true true).2 = true
    ∧ Step.mslit_tcrude ∈ (run_steps ⟨true, false, true, false, false⟩ true true true).1
    ∧ Step.mslit_sync ∈ (run_steps ⟨true, false, true, false, false⟩ true true true).1 := by
  decide

/-- C7 (amended): with a non-empty trace.slits.single setting, run() takes the
edge map from the user pair (no detection from the trace image), sets user_set,
and skips the final left/right fussing; when a single left and right edge
remain, the statistical assignment branch is bypassed, and when the longslit
check succeeds the synchronize/PCA/trim stages are skipped; but the trace-crude
and multi-slit synchronization stages still run whenever armlsd is set. -/
theorem run_user_set_steps (cfg : RunConfig) (lcnt_is1 rcnt_is1 : Bool) (longslit : Bool)
    (h : cfg.singleNonEmpty = true) :
    (run_steps cfg lcnt_is1 rcnt_is1 longslit).2 = true
    ∧ Step.edgearr_single_slit ∈ (run_steps cfg lcnt_is1 rcnt_is1 longslit).1
    ∧ Step.edgearr_from_binarr ∉ (run_steps cfg lcnt_is1 rcnt_is1 longslit).1
    ∧ Step.final_left_right ∉ (run_steps cfg lcnt_is1 rcnt_is1 longslit).1
    ∧ (lcnt_is1 = true → Step.assign_slits_left ∉ (run_steps cfg lcnt_is1 rcnt_is1 longslit).1)
    ∧ (rcnt_is1 = true → Step.assign_slits_right ∉ (run_steps cfg lcnt_is1 rcnt_is1 longslit).1)
    ∧ (longslit = true → Step.pca ∉ (run_steps cfg lcnt_is1 rcnt_is1 longslit).1)
    ∧ (cfg.armlsd = true →
        Step.mslit_tcrude ∈ (run_steps cfg lcnt_is1 rcnt_is1 longslit).1
        ∧ Step.mslit_sync ∈ (run_steps cfg lcnt_is1 rcnt_is1 longslit).1) := by
  obtain ⟨s1, mg, al, io, au⟩ := cfg
  revert h
  revert longslit
  revert rcnt_is1
  revert lcnt_is1
  revert au
  revert io
  revert al
  revert mg
  revert s1
  decide

/-- Witness for C7 at a concrete configuration: user single slit, no maxgap,
armlsd set, no ignore-orders, no added user slits, one left and one right edge,
longslit check succeeding. -/
theorem run_user_set_steps_witness :
    (run_steps ⟨true, false, true, false, false⟩ true true false).2 = true
    ∧ Step.edgearr_single_slit ∈ (run_steps ⟨true, false, true, false, false⟩ true true false).1
    ∧ Step.edgearr_from_binarr ∉ (run_steps ⟨true, false, true, false, false⟩ true true false).1
    ∧ Step.final_left_right ∉ (run_steps ⟨true, false, true, false, false⟩ true true false).1
    ∧ (true = true → Step.assign_slits_left ∉ (run_steps ⟨true, false, true, false, false⟩ true true false).1)
    ∧ (true = true → Step.assign_slits_right ∉ (run_steps ⟨true, false, true, false, false⟩ true true false).1)
    ∧ (false = true → Step.pca ∉ (run_steps ⟨true, false, true, false, false⟩ true true false).1)
    ∧ (true = true →
        Step.mslit_tcrude ∈ (run_steps ⟨true, false, true, false, false⟩ true true false).1
        ∧ Step.mslit_sync ∈ (run_steps ⟨true, false, true, false, false⟩ true true false).1) :=
  run_user_set_steps ⟨true, false, true, false, false⟩ true true false rfl

/-- C5: mask_to_pixel_coordinates fails with an error rather than returning
coordinates whenever no slit-mask coordinates are supplied and no SlitMask was
ever established with none buildable (no file), or no Grating was ever
established and none can be built from a supplied file (no file, or a file
whose grating resolves to None or whose headers make get_grating raise). -/
theorem mask_to_pixel_requires_state (st : SpecState) (x y : Option (List ℚ))
    (filename : Option CalibFile)
    (h : (x = none ∧ y = none ∧ st.slitmask = none ∧ filename = none)
       ∨ (st.grating = none ∧ (filename = none
           ∨ ∀ f, filename = some f →
               get_grating f = Except.ok none ∨ isError (get_grating f) = true))) :
    isError (mask_to_pixel_coordinates st x y filename) = true := by
  rcases h with ⟨hx, hy, hm, hf⟩ | ⟨hg, hf⟩
  · subst hx; subst hy; subst hf
    simp [mask_to_pixel_coordinates, hm, isError]
  · cases filename with
    | none =>
      cases x <;> cases y <;> cases hsm : st.slitmask <;>
        simp [mask_to_pixel_coordinates, hg, hsm, isError]
    | some f =>
      have hff : get_grating f = Except.ok none ∨ isError (get_grating f) = true := by
        rcases hf with hnone | hf
        · exact absurd hnone (by simp)
        · exact hf f rfl
      rcases hff with hoknone | herr
      · cases x <;> cases y <;> cases hsm : st.slitmask <;>
          simp [mask_to_pixel_coordinates, hoknone, hsm, isError]
      · obtain ⟨e, he⟩ : ∃ e, get_grating f = Except.error e := by
          cases hge : get_grating f with
          | error e => exact ⟨e, rfl⟩
          | ok v => rw [hge] at herr; exact absurd herr (by simp [isError])
        cases x <;> cases y <;> simp [mask_to_pixel_coordinates, he, isError]

/-- Witness for C5 at a concrete state: no coordinates, no slit mask, no
grating and no file. -/
theorem mask_to_pixel_requires_state_witness :
    isError (mask_to_pixel_coordinates ⟨none, none⟩ none none none) = true :=
  mask_to_pixel_requires_state ⟨none, none⟩ none none none
    (Or.inl ⟨rfl, rfl, rfl, rfl⟩)

/-- C10: for a calibration file whose grating name contains Mirror (and a valid
slider position 2, 3 or 4), get_grating resolves the ruling to 0 and stores
None as the grating, and a subsequent mask_to_pixel_coordinates call raises the
no-grating ValueError even when that same file is supplied to the call. -/
theorem mirror_grating_none_then_error (st : SpecState) (f : CalibFile)
    (x y : Option (List ℚ))
    (hm : containsMirror f.gratenam = true)
    (hs : f.gratepos = 2 ∨ f.gratepos = 3 ∨ f.gratepos = 4)
    (hxy : x.isSome = y.isSome) :
    rulingOf f.gratenam = Except.ok 0
    ∧ get_grating f = Except.ok none
    ∧ mask_to_pixel_coordinates st x y (some f)
        = Except.error "ValueError: Must define a grating first; provide a file or use get_grating()" := by
  have h0 : rulingOf f.gratenam = Except.ok 0 := by simp [rulingOf, hm]
  have htr : int_trunc (0 : ℚ) = 0 := rfl
  have h2 : get_grating f = Except.ok none := by
    rcases hs with hsl | hsl | hsl <;>
      simp [get_grating, h0, grating_orientation, hsl, orientation_coeffs, htr]
  refine ⟨h0, h2, ?_⟩
  cases x <;> cases y <;> simp_all [mask_to_pixel_coordinates, isError]

/-- Witness for C10 at a concrete file with grating name Mirror in slider 3. -/
theorem mirror_grating_none_then_error_witness :
    rulingOf "Mirror" = Except.ok 0
    ∧ get_grating ⟨3, "Mirror", 0, 0, 0, 0, []⟩ = Except.ok none
    ∧ mask_to_pixel_coordinates ⟨none, none⟩ (some [0]) (some [0])
        (some ⟨3, "Mirror", 0, 0, 0, 0, []⟩)
        = Except.error "ValueError: Must define a grating first; provide a file or use get_grating()" :=
  mirror_grating_none_then_error ⟨none, none⟩ ⟨3, "Mirror", 0, 0, 0, 0, []⟩
    (some [0]) (some [0]) (by decide) (Or.inr (Or.inl rfl)) rfl

/-- C8: for an in-bounds pixel on a chip whose rotation is orthonormal, the
round trip ccd_coordinates (image_coordinates chip x y) recovers exactly
(chip, x, y), provided the chip search resolves the imaging point to that chip
(the inverse transforms of the earlier chips land off-chip). -/
theorem detector_map_roundtrip (m : DetMap) (chip : ℕ) (x y : ℚ)
    (hps : m.pixelSize ≠ 0)
    (hchip : chip < m.chips.length)
    (horth : (m.chips.getD chip ⟨0, 0, 1, 0⟩).cosr * (m.chips.getD chip ⟨0, 0, 1, 0⟩).cosr
        + (m.chips.getD chip ⟨0, 0, 1, 0⟩).sinr * (m.chips.getD chip ⟨0, 0, 1, 0⟩).sinr = 1)
    (hin : pixInBounds m (x, y) = true)
    (hprev : ∀ j, j < chip →
      pixInBounds m (chip_pixel m (m.chips.getD j ⟨0, 0, 1, 0⟩)
        (image_coordinates m chip x y)) = false) :
    ccd_coordinates m (image_coordinates m chip x y) = some (chip, x, y) := by
  have hround : chip_pixel m (m.chips.getD chip ⟨0, 0, 1, 0⟩)
      (image_coordinates m chip x y) = (x, y) := by
    rw [image_coordinates_def]
    exact chip_pixel_pair m _ x y hps horth
  have hfind := ccdFindGo_eq m (image_coordinates m chip x y) m.chips chip 0 hchip
    hprev (by rw [hround]; exact hin)
  simp only [ccd_coordinates]
  rw [hfind, hround]
  simp

unseal Rat.mul Rat.inv Rat.add Rat.sub in
/-- Witness for C8 on the DEIMOS chip-3 geometry (the chip whose rotation is
exactly zero) at the pixel (24, 1000) used by the repository test. -/
theorem detector_map_roundtrip_witness :
    ccd_coordinates deimos_chip3_map (image_coordinates deimos_chip3_map 0 24 1000)
      = some (0, 24, 1000) :=
  detector_map_roundtrip deimos_chip3_map 0 24 1000 (by decide) (by decide)
    (by decide) (by decide) (fun j hj => absurd hj (Nat.not_lt_zero j))

/-- C9 counterexample: a tracing state whose tc_dict is None (as after a run
with armlsd = False) is written without a tc_dict entry, and reloading it fails
with KeyError because from_files reads tc_dict unconditionally, so the write
and reload round trip does not hold for every tracing state. -/
theorem from_files_missing_tcdict_cex :
    ts_from_files (fun _ => (0 : ℕ))
      (ts_write (⟨1, 2, 3, false, 0, [], none, none, none, none,
        (none : Option ℕ)⟩ : TSState ℕ ℕ ℕ))
      = Except.error "KeyError: tc_dict" := by
  rfl

/-- C9 (amended): for every tracing state whose tc_dict is present (as after
any armlsd run), writing and reloading succeeds and reconstructs the trace
image, pixel locations, bad-pixel mask, settings, step history, edge map,
significance map and final curves, so any deterministic fit phase resumed on
the reloaded state produces lcen/rcen identical to running straight through. -/
theorem write_from_files_roundtrip {α σ τ : Type} (uz : α → α) (s : TSState α σ τ)
    (htc : s.tc_dict.isSome = true)
    (hb : s.input_binbpx = false → s.binbpx = uz s.mstrace) :
    ∃ s2, ts_from_files uz (ts_write s) = Except.ok s2
      ∧ fit_inputs s2 = fit_inputs s
      ∧ s2.steps = s.steps
      ∧ s2.tc_dict = s.tc_dict
      ∧ s2.siglev = s.siglev
      ∧ (s.lcen.isSome = true → s2.lcen = s.lcen ∧ s2.rcen = s.rcen)
      ∧ ∀ fit_phase : α × α × α × σ × Option α → Option α × Option α,
          fit_phase (fit_inputs s2) = fit_phase (fit_inputs s) := by
  obtain ⟨mst, pix, bbx, inb, stg, stp, lc, rc, ea, sg, tc⟩ := s
  obtain ⟨t, rfl⟩ := Option.isSome_iff_exists.mp htc
  simp only at hb
  cases lc <;> cases ea <;> cases sg <;> cases inb <;>
    simp_all [ts_write, ts_from_files, fit_inputs, List.lookup]

/-- Witness for C9 at a concrete state over natural-number payloads with every
optional plane present. -/
theorem write_from_files_roundtrip_witness :
    ∃ s2, ts_from_files (fun _ => (0 : ℕ))
        (ts_write (⟨1, 2, 3, true, 4, ["mk"], some 5, some 6, some 7, some 8,
          (some 9 : Option ℕ)⟩ : TSState ℕ ℕ ℕ))
        = Except.ok s2
      ∧ fit_inputs s2 = fit_inputs (⟨1, 2, 3, true, 4, ["mk"], some 5, some 6, some 7,
          some 8, (some 9 : Option ℕ)⟩ : TSState ℕ ℕ ℕ)
      ∧ s2.steps = ["mk"]
      ∧ s2.tc_dict = some 9
      ∧ s2.siglev = some 8
      ∧ ((some 5 : Option ℕ).isSome = true → s2.lcen = some 5 ∧ s2.rcen = some 6)
      ∧ ∀ fit_phase : ℕ × ℕ × ℕ × ℕ × Option ℕ → Option ℕ × Option ℕ,
          fit_phase (fit_inputs s2) = fit_phase (fit_inputs (⟨1, 2, 3, true, 4, ["mk"],
            some 5, some 6, some 7, some 8, (some 9 : Option ℕ)⟩ : TSState ℕ ℕ ℕ)) := by
  have h := write_from_files_roundtrip (fun _ => (0 : ℕ))
    (⟨1, 2, 3, true, 4, ["mk"], some 5, some 6, some 7, some 8,
      (some 9 : Option ℕ)⟩ : TSState ℕ ℕ ℕ) rfl (fun hfalse => absurd hfalse (by simp))
  simpa using h

end PypeIt
